import Mathlib

/-!
Verification of the antibiotic PK/PD simulation engine.

Shallow embedding of the core simulation code:
* `Full.*`   — classes `PatientProfile`, `DrugProperties`, `PharmacokineticModel`,
  `BacterialPopulationModel` as they appear (identically) in
  `antibiotic_simulator_full.py` and `animated_visualizer.py`;
* `Fixed.*`  — the rate computation of `FixedAntibioticSimulator.update_simulation_step`
  in `antibiotic_fixed.py`;
* `Sci.*`    — `PatientProfile`, `DrugProperties`, `PharmacokineticModel`,
  `BacterialDynamicsModel`, `ScientificSimulator.run_simulation` from
  `scientific_simulator.py`;
* `Animated.*` — the post-solver recording and outcome evaluation of
  `_simulate_single_patient` in `animated_visualizer.py`.

Python floats are modelled as real numbers; `numpy.exp` as `Real.exp`; the float
power `**` as `Real.rpow`.
-/

noncomputable section

namespace Full

/-- `PatientProfile` dataclass of `antibiotic_simulator_full.py` (lines 53-62). -/
structure PatientProfile where
  age : ℝ
  weight : ℝ
  creatinine_clearance : ℝ
  genetic_markers : List (String × ℝ)
  infection_severity : ℝ

/-- `DrugProperties` dataclass of `antibiotic_simulator_full.py` (lines 64-75). -/
structure DrugProperties where
  mic_sensitive : ℝ
  mic_resistant : ℝ
  mpc : ℝ
  half_life : ℝ
  volume_distribution : ℝ
  protein_binding : ℝ
  emax : ℝ
  hill_coefficient : ℝ

/-- `PharmacokineticModel.calculate_elimination_rate` (lines 88-101):
`base_ke = 0.693 / half_life`, `renal_factor = creatinine_clearance / 120`,
`genetic_factor = genetic_markers.get('cyp_activity', 1.0)`,
`age_factor = 1.0 - (age - 30) * 0.01 if age > 30 else 1.0` (no clamping). -/
def calculate_elimination_rate (drug : DrugProperties) (patient : PatientProfile) : ℝ :=
  let base_ke := 0.693 / drug.half_life
  let renal_factor := patient.creatinine_clearance / 120.0
  let genetic_factor := (patient.genetic_markers.lookup "cyp_activity").getD 1.0
  let age_factor := if patient.age > 30 then 1.0 - (patient.age - 30) * 0.01 else 1.0
  base_ke * renal_factor * genetic_factor * age_factor

/-- `PharmacokineticModel.calculate_volume_distribution` (lines 103-108). -/
def calculate_volume_distribution (drug : DrugProperties) (patient : PatientProfile) : ℝ :=
  drug.volume_distribution * patient.weight

/-- The two scalars stored by `PharmacokineticModel.__init__`. -/
structure PharmacokineticModel where
  ke : ℝ
  vd : ℝ

/-- `PharmacokineticModel.__init__` (lines 80-86): computes `ke` and `vd`;
performs no validation and never raises. -/
def mkPharmacokineticModel (drug : DrugProperties) (patient : PatientProfile) :
    PharmacokineticModel :=
  { ke := calculate_elimination_rate drug patient
    vd := calculate_volume_distribution drug patient }

/-- `BacterialPopulationModel.pharmacodynamic_effect` (lines 152-156):
returns 0 for `concentration ≤ 0`, otherwise the Hill equation
`emax * conc^hill / (mic^hill + conc^hill)`. -/
def pharmacodynamic_effect (concentration mic emax hill : ℝ) : ℝ :=
  if concentration ≤ 0 then 0
  else emax * concentration ^ hill / (mic ^ hill + concentration ^ hill)

/-- The parameters set in `BacterialPopulationModel.__init__` (lines 142-150). -/
structure BacterialPopulationModel where
  growth_rate_s : ℝ
  growth_rate_r : ℝ
  mutation_rate : ℝ
  carrying_capacity : ℝ

/-- The literal parameter values assigned in `BacterialPopulationModel.__init__`. -/
def defaultPopulationModel : BacterialPopulationModel :=
  { growth_rate_s := 0.693
    growth_rate_r := 0.623
    mutation_rate := 1e-8
    carrying_capacity := 1e12 }

/-- `BacterialPopulationModel.ode_system` (lines 158-179 of
`antibiotic_simulator_full.py`, identically lines 1710-1731 of
`animated_visualizer.py`): `growth_factor = 1 - total_pop / carrying_capacity`
(not clamped at 0), then
`dS = (growth_rate_s * growth_factor - kill_s) * S - mutation_rate * S` and
`dR = (growth_rate_r * growth_factor - kill_r) * R + mutation_rate * S`. -/
def ode_system (m : BacterialPopulationModel) (t : ℝ) (y : ℝ × ℝ)
    (drug_conc_func : ℝ → ℝ) (drug : DrugProperties) : ℝ × ℝ :=
  let S := y.1
  let R := y.2
  let C := drug_conc_func t
  let kill_rate_s := pharmacodynamic_effect C drug.mic_sensitive drug.emax drug.hill_coefficient
  let kill_rate_r := pharmacodynamic_effect C drug.mic_resistant drug.emax drug.hill_coefficient
  let total_pop := S + R
  let growth_factor := 1 - total_pop / m.carrying_capacity
  ((m.growth_rate_s * growth_factor - kill_rate_s) * S - m.mutation_rate * S,
   (m.growth_rate_r * growth_factor - kill_rate_r) * R + m.mutation_rate * S)

/-- The inner loop of `PharmacokineticModel.concentration_time_course`
(lines 126-135): sums `(doses[j] / vd) * exp(-ke * (t - j*12))` over the
released dose indices `j < dose_idx` with `j*12 ≤ t` — dose times are the
implicit 12-hour grid, with no bioavailability or free-fraction factor. -/
def ctc_step_sum (m : PharmacokineticModel) (doses : List ℝ) (dose_idx : ℕ) (t : ℝ) : ℝ :=
  (List.range dose_idx).foldl
    (fun acc (j : ℕ) =>
      if (j : ℝ) * 12 ≤ t then
        acc + (doses.getD j 0 / m.vd) * Real.exp (-m.ke * (t - (j : ℝ) * 12))
      else acc) 0

/-- The release bookkeeping of `concentration_time_course` (lines 117-124):
at each output time `t`, one more dose is released when doses remain and
`t ≥ dose_idx * 12`. -/
def next_dose_idx (doses : List ℝ) (dose_idx : ℕ) (t : ℝ) : ℕ :=
  if dose_idx < doses.length ∧ (dose_idx : ℝ) * 12 ≤ t then dose_idx + 1 else dose_idx

/-- The main loop of `concentration_time_course`, carrying `dose_idx` across
the output times. -/
def concentration_time_course_aux (m : PharmacokineticModel) (doses : List ℝ) :
    ℕ → List ℝ → List ℝ
  | _, [] => []
  | dose_idx, t :: rest =>
      let k := next_dose_idx doses dose_idx t
      ctc_step_sum m doses k t :: concentration_time_course_aux m doses k rest

/-- `PharmacokineticModel.concentration_time_course`
(`antibiotic_simulator_full.py` lines 110-137, identically in
`animated_visualizer.py`): the function takes no dose times — it assumes the
fixed 12-hour grid — and starts with no dose released. -/
def concentration_time_course (m : PharmacokineticModel) (doses times : List ℝ) : List ℝ :=
  concentration_time_course_aux m doses 0 times

end Full

namespace Fixed

/-- `FixedAntibioticSimulator.pharmacodynamic_effect` (`antibiotic_fixed.py`
lines 131-135), parametrised by the instance fields `emax` and `hill`. -/
def pharmacodynamic_effect (emax hill conc mic : ℝ) : ℝ :=
  if conc ≤ 0 then 0
  else emax * conc ^ hill / (mic ^ hill + conc ^ hill)

/-- The rate computation of `FixedAntibioticSimulator.update_simulation_step`
(`antibiotic_fixed.py` lines 144-160), as a function of the current populations
`S`, `R` and concentration `conc` (the growth, mutation and capacity constants
are local literals in that method):
`growth_factor = max(0, 1 - total_pop / carrying_capacity)`, then the same
`dS_dt`, `dR_dt` formulas as `ode_system`. -/
def update_rates (emax hill mic_s mic_r S R conc : ℝ) : ℝ × ℝ :=
  let kill_rate_s := pharmacodynamic_effect emax hill conc mic_s
  let kill_rate_r := pharmacodynamic_effect emax hill conc mic_r
  let growth_rate_s := (0.693 : ℝ)
  let growth_rate_r := (0.623 : ℝ)
  let mutation_rate := (1e-8 : ℝ)
  let carrying_capacity := (1e12 : ℝ)
  let total_pop := S + R
  let growth_factor := max 0 (1 - total_pop / carrying_capacity)
  ((growth_rate_s * growth_factor - kill_rate_s) * S - mutation_rate * S,
   (growth_rate_r * growth_factor - kill_rate_r) * R + mutation_rate * S)

end Fixed

namespace Spec

/-- The right-hand side claimed by the spec (section 4.2): growth factor
clamped at 0, Hill kills, logistic growth and mutation flux. -/
def bacterial_rhs_clamped (growth_s growth_r mutation_rate carrying_capacity
    kill_S kill_R S R : ℝ) : ℝ × ℝ :=
  let growth_factor := max 0 (1 - (S + R) / carrying_capacity)
  ((growth_s * growth_factor - kill_S) * S - mutation_rate * S,
   (growth_r * growth_factor - kill_R) * R + mutation_rate * S)

/-- The same right-hand side but with the growth factor not clamped at 0,
as `ode_system` actually computes it. -/
def bacterial_rhs_unclamped (growth_s growth_r mutation_rate carrying_capacity
    kill_S kill_R S R : ℝ) : ℝ × ℝ :=
  let growth_factor := 1 - (S + R) / carrying_capacity
  ((growth_s * growth_factor - kill_S) * S - mutation_rate * S,
   (growth_r * growth_factor - kill_R) * R + mutation_rate * S)

/-- The elimination-rate formula as the spec's words have it, except with the
age factor left unclamped, matching the code. -/
def elimination_rate_unclamped (half_life creatinine_clearance genetic_factor age : ℝ) : ℝ :=
  (0.693 / half_life) * (creatinine_clearance / 120.0) * genetic_factor *
    (if age > 30 then 1.0 - (age - 30) * 0.01 else 1.0)

end Spec

namespace Sci

/-- `PatientProfile` dataclass of `scientific_simulator.py` (lines 33-55). -/
structure PatientProfile where
  weight : ℝ
  age : ℝ
  creatinine_clearance : ℝ
  cyp2d6_activity : ℝ

/-- `PatientProfile.get_clearance_adjustment` (lines 44-48). -/
def get_clearance_adjustment (p : PatientProfile) : ℝ :=
  p.creatinine_clearance / 120.0

/-- `PatientProfile.get_volume_adjustment` (lines 50-55):
`weight_factor * max(0.5, age_factor)` with `age_factor = 1 - (age-35)*0.005`. -/
def get_volume_adjustment (p : PatientProfile) : ℝ :=
  let weight_factor := p.weight / 70.0
  let age_factor := 1.0 - (p.age - 35.0) * 0.005
  weight_factor * max 0.5 age_factor

/-- `DrugProperties` dataclass of `scientific_simulator.py` (lines 57-82),
restricted to the fields the PK model reads. -/
structure DrugProperties where
  bioavailability : ℝ
  protein_binding : ℝ
  half_life : ℝ
  vd_base : ℝ

/-- `DrugProperties.get_elimination_constant` (lines 84-89). -/
def get_elimination_constant (d : DrugProperties) (p : PatientProfile) : ℝ :=
  (0.693 / d.half_life) * get_clearance_adjustment p * p.cyp2d6_activity

/-- `DrugProperties.get_distribution_volume` (lines 91-94). -/
def get_distribution_volume (d : DrugProperties) (p : PatientProfile) : ℝ :=
  d.vd_base * p.weight * get_volume_adjustment p

/-- `PharmacokineticModel` of `scientific_simulator.py`: the constructor
(lines 99-103) stores the drug and the two derived scalars, with no
validation whatsoever. -/
structure PharmacokineticModel where
  drug : DrugProperties
  ke : ℝ
  vd : ℝ

/-- `PharmacokineticModel.__init__` (lines 99-103). -/
def mkPharmacokineticModel (drug : DrugProperties) (patient : PatientProfile) :
    PharmacokineticModel :=
  { drug := drug
    ke := get_elimination_constant drug patient
    vd := get_distribution_volume drug patient }

/-- `PharmacokineticModel.calculate_concentration` (lines 105-127): for each
dose with `time ≥ dose_time`, adds
`(dose_amount * bioavailability / vd) * exp(-ke * (time - dose_time)) * (1 - protein_binding)`,
then clamps the total at 0 from below. -/
def calculate_concentration (m : PharmacokineticModel) (time : ℝ)
    (dose_times dose_amounts : List ℝ) : ℝ :=
  let total_conc :=
    (dose_times.zip dose_amounts).foldl
      (fun acc d =>
        if time ≥ d.1 then
          acc + (d.2 * m.drug.bioavailability / m.vd) *
            Real.exp (-m.ke * (time - d.1)) * (1.0 - m.drug.protein_binding)
        else acc) 0
  max 0.0 total_conc

/-- Parameters set in `BacterialDynamicsModel.__init__` (lines 132-144). -/
structure BacterialDynamicsModel where
  growth_rate_sensitive : ℝ
  growth_rate_resistant : ℝ
  carrying_capacity : ℝ
  mutation_rate : ℝ
  competition_coefficient : ℝ

/-- The literal values assigned in `BacterialDynamicsModel.__init__`. -/
def defaultBacterialModel : BacterialDynamicsModel :=
  { growth_rate_sensitive := 0.693
    growth_rate_resistant := 0.623
    carrying_capacity := 1e12
    mutation_rate := 1e-8
    competition_coefficient := 0.1 }

/-- `BacterialDynamicsModel.sigmoid_kill_curve` (lines 146-158). -/
def sigmoid_kill_curve (concentration mic emax hill : ℝ) : ℝ :=
  if concentration ≤ 0 then 0
  else emax * concentration ^ hill / (mic ^ hill + concentration ^ hill)

/-- `BacterialDynamicsModel.calculate_bacterial_change` (lines 160-188):
clamped logistic growth factor, Hill kills at the two MICs (with the method's
default `emax = 4.0`, `hill = 2.5`), competition terms
`competition_coefficient * R / total` and `* S / total` (0 when `total ≤ 0`),
and the mutation flux. -/
def calculate_bacterial_change (m : BacterialDynamicsModel) (S R : ℝ)
    (drug_concentration : ℝ) (mic_sensitive mic_resistant : ℝ) : ℝ × ℝ :=
  let total_bacteria := S + R
  let growth_limitation := max 0 (1 - total_bacteria / m.carrying_capacity)
  let kill_rate_S := sigmoid_kill_curve drug_concentration mic_sensitive 4.0 2.5
  let kill_rate_R := sigmoid_kill_curve drug_concentration mic_resistant 4.0 2.5
  let competition_S := if total_bacteria > 0 then m.competition_coefficient * R / total_bacteria else 0
  let competition_R := if total_bacteria > 0 then m.competition_coefficient * S / total_bacteria else 0
  ((m.growth_rate_sensitive * growth_limitation - kill_rate_S - competition_S) * S
      - m.mutation_rate * S,
   (m.growth_rate_resistant * growth_limitation - kill_rate_R - competition_R) * R
      + m.mutation_rate * S)

/-- The fields of `ScientificSimulator` that `run_simulation` reads
(lines 193-205): the PK model, the bacterial model, the fixed time step and
horizon, and the initial populations. -/
structure ScientificSimulator where
  pk_model : PharmacokineticModel
  bacterial_model : BacterialDynamicsModel
  time_step : ℝ
  max_time : ℝ
  initial_S : ℝ
  initial_R : ℝ

/-- The simulator with the field values set in `ScientificSimulator.__init__`
for the standard patient and default drug of `scientific_simulator.py`. -/
def defaultSimulator : ScientificSimulator :=
  { pk_model := mkPharmacokineticModel
      { bioavailability := 0.78, protein_binding := 0.25, half_life := 4.1, vd_base := 2.1 }
      { weight := 70.0, age := 35.0, creatinine_clearance := 120.0, cyp2d6_activity := 1.0 }
    bacterial_model := defaultBacterialModel
    time_step := 0.1
    max_time := 168
    initial_S := 1e8
    initial_R := 1e4 }

/-- The result dictionary of `run_simulation`, restricted to the four series
the spec's Trajectory names. -/
structure Trajectory where
  times : List ℝ
  concentrations : List ℝ
  sensitive_populations : List ℝ
  resistant_populations : List ℝ

/-- One Euler update of `run_simulation` (lines 236-243): rates from the
populations at the previous grid point and the concentration at the current
one, then `max(0, previous + rate * time_step)` componentwise. -/
def euler_step (sim : ScientificSimulator) (sr : ℝ × ℝ) (conc : ℝ) : ℝ × ℝ :=
  let d := calculate_bacterial_change sim.bacterial_model sr.1 sr.2 conc 0.5 8.0
  (max 0 (sr.1 + d.1 * sim.time_step), max 0 (sr.2 + d.2 * sim.time_step))

/-- The population series of `run_simulation`: index 0 holds the initial
populations; each later index `i` is the clamped Euler update of index `i-1`
using the concentration at index `i` (the loop at lines 231-243). -/
def simulate_populations (sim : ScientificSimulator) (concs : List ℝ) : List (ℝ × ℝ) :=
  match concs with
  | [] => []
  | _ :: rest => List.scanl (euler_step sim) (sim.initial_S, sim.initial_R) rest

/-- `ScientificSimulator.run_simulation` (lines 207-271): time grid
`np.arange(0, max_time, time_step)`, concentrations from the PK model at every
grid point, populations advanced by clamped Euler steps from
`(initial_S, initial_R)`. -/
def run_simulation (sim : ScientificSimulator) (dose_schedule : List (ℝ × ℝ)) :
    Trajectory :=
  let n := Nat.ceil (sim.max_time / sim.time_step)
  let times := (List.range n).map (fun i : ℕ => (i : ℝ) * sim.time_step)
  let dose_times := dose_schedule.map Prod.fst
  let dose_amounts := dose_schedule.map Prod.snd
  let concs := times.map (fun t => calculate_concentration sim.pk_model t dose_times dose_amounts)
  let pops := simulate_populations sim concs
  { times := times
    concentrations := concs
    sensitive_populations := pops.map Prod.fst
    resistant_populations := pops.map Prod.snd }

end Sci

namespace Animated

/-- What `_simulate_single_patient` (`animated_visualizer.py` lines 2295-2320)
does with the ODE solver's output: the two component series of `sol.y` are
recorded verbatim (no clamping), and the outcome scalars are derived from the
final values. -/
structure SolverOutput where
  y0 : List ℝ
  y1 : List ℝ

/-- The recorded part of the result of `_simulate_single_patient`
(lines 2311-2320): `S_trajectory = sol.y[0]`, `R_trajectory = sol.y[1]`,
unchanged, plus the outcome evaluation on the last point. -/
structure PatientResult where
  S_trajectory : List ℝ
  R_trajectory : List ℝ

/-- Lines 2311-2313: the solver output is recorded without any modification or
clamping. -/
def record_solution (sol : SolverOutput) : PatientResult :=
  { S_trajectory := sol.y0
    R_trajectory := sol.y1 }

end Animated

namespace Outcome

/-- The outcome evaluation of `simple_demo` (`antibiotic_simulator_full.py`
lines 354-356) and `_simulate_single_patient` (`animated_visualizer.py`
lines 2316-2320), as a function of the final populations:
`final_total = S + R`,
`final_resistance_fraction = R / final_total if final_total > 0 else 0`. -/
def final_total (S R : ℝ) : ℝ := S + R

/-- `final_resistance_fraction = R_trajectory[-1] / final_total if final_total > 0 else 0`. -/
def final_resistance_fraction (S R : ℝ) : ℝ :=
  if final_total S R > 0 then R / final_total S R else 0

/-- `treatment_success = final_total < 1e6 and final_resistance_fraction < 0.1`. -/
def treatment_success (S R : ℝ) : Prop :=
  final_total S R < 1e6 ∧ final_resistance_fraction S R < 0.1

instance (S R : ℝ) : Decidable (treatment_success S R) := by
  unfold treatment_success; infer_instance

/-- The resistance-fraction convention as the spec words it: `R/(S+R)`,
and 0 when the final total is 0. -/
def spec_resistance_fraction (S R : ℝ) : ℝ :=
  if S + R = 0 then 0 else R / (S + R)

end Outcome

namespace Spec

/-- The superposition formula exactly as the claim states it: the sum over all
doses with `dose_time ≤ t` of
`(dose_amount * bioavailability / vd) * exp(-ke * (t - dose_time))`. -/
def concentration_superposition (bioavailability vd ke time : ℝ)
    (schedule : List (ℝ × ℝ)) : ℝ :=
  ((schedule.filter (fun d => d.1 ≤ time)).map
    (fun d => (d.2 * bioavailability / vd) * Real.exp (-ke * (time - d.1)))).sum

/-- The superposition formula the code actually implements: each term carries
the extra free-drug factor `1 - protein_binding`. -/
def concentration_superposition_free (bioavailability protein_binding vd ke time : ℝ)
    (schedule : List (ℝ × ℝ)) : ℝ :=
  ((schedule.filter (fun d => d.1 ≤ time)).map
    (fun d => (d.2 * bioavailability / vd) * Real.exp (-ke * (time - d.1))
        * (1.0 - protein_binding))).sum

/-- Declarative description of what `concentration_time_course` emits: at each
output time `t` (given `released` doses already released), one more dose is
released when doses remain and `t ≥ released * 12`, and the emitted value is
the superposition of the claim's formula — with bioavailability 1 and no
free-fraction factor — over the released prefix of the implicit 12-hour-grid
schedule `[(0, doses[0]), (12, doses[1]), …]`. -/
def twelve_hour_course (vd ke : ℝ) (doses : List ℝ) : ℕ → List ℝ → List ℝ
  | _, [] => []
  | released, t :: rest =>
      let k := if released < doses.length ∧ (released : ℝ) * 12 ≤ t then released + 1 else released
      concentration_superposition 1 vd ke t
          ((List.range k).map (fun j : ℕ => ((j : ℝ) * 12, doses.getD j 0))) ::
        twelve_hour_course vd ke doses k rest

end Spec

namespace Fixtures

/-- The sample drug built in `simple_demo` (`antibiotic_simulator_full.py`
lines 293-298). -/
def demoDrug : Full.DrugProperties :=
  { mic_sensitive := 0.5, mic_resistant := 8.0, mpc := 2.0, half_life := 4.0
    volume_distribution := 2.5, protein_binding := 0.2, emax := 4.0, hill_coefficient := 2.0 }

/-- The demo drug with an invalid (negative) half-life. -/
def badHalfLifeDrug : Full.DrugProperties :=
  { demoDrug with half_life := -4.0 }

/-- A patient of standard age and renal function, with no genetic markers. -/
def stdPatient : Full.PatientProfile :=
  { age := 30, weight := 70, creatinine_clearance := 120, genetic_markers := []
    infection_severity := 0.5 }

/-- The standard patient but with a (physically meaningless) negative weight,
so that the computed distribution volume is negative. -/
def negWeightPatient : Full.PatientProfile :=
  { stdPatient with weight := -70 }

/-- The standard patient at age 140, beyond the point where the unclamped age
factor becomes negative. -/
def veryOldPatient : Full.PatientProfile :=
  { stdPatient with age := 140 }

/-- The standard patient at age 150, also beyond that point. -/
def veryOldPatient150 : Full.PatientProfile :=
  { stdPatient with age := 150 }

end Fixtures



section HelperLemmas

/-- A fold that conditionally adds equals the starting value plus the sum over
the filtered list. -/
theorem foldl_ite_add (time : ℝ) (g : ℝ × ℝ → ℝ) (l : List (ℝ × ℝ)) (a : ℝ) :
    l.foldl (fun acc d => if time ≥ d.1 then acc + g d else acc) a
      = a + ((l.filter (fun d => d.1 ≤ time)).map g).sum := by
  induction l generalizing a with
  | nil => simp
  | cons x xs ih =>
    by_cases hx : x.1 ≤ time
    · simp [List.foldl_cons, List.filter_cons, hx, ih, add_assoc]
    · simp [List.foldl_cons, List.filter_cons, hx, ih]

/-- Every element of a `scanl` satisfies an invariant preserved by the step
function and holding at the start. -/
theorem mem_scanl_invariant {α β : Type} (f : β → α → β) (P : β → Prop)
    (hstep : ∀ b a, P (f b a)) :
    ∀ (l : List α) (init : β), P init → ∀ b ∈ List.scanl f init l, P b := by
  intro l
  induction l with
  | nil =>
    intro init h b hb
    simp only [List.scanl, List.mem_singleton] at hb
    exact hb ▸ h
  | cons x xs ih =>
    intro init h b hb
    rw [List.scanl] at hb
    rcases List.mem_cons.mp hb with hb | hb
    · exact hb ▸ h
    · exact ih (f init x) (hstep init x) b hb

/-- The population series has the same length as the concentration series. -/
theorem simulate_populations_length (sim : Sci.ScientificSimulator) (concs : List ℝ) :
    (Sci.simulate_populations sim concs).length = concs.length := by
  cases concs with
  | nil => rfl
  | cons c rest => simp [Sci.simulate_populations, List.length_scanl]

/-- Nonnegativity of the Hill effect, for any concentration and any exponent. -/
theorem pharmacodynamic_effect_nonneg (mic emax hill : ℝ) (hm : 0 < mic)
    (he : 0 ≤ emax) (c : ℝ) : 0 ≤ Full.pharmacodynamic_effect c mic emax hill := by
  unfold Full.pharmacodynamic_effect
  split
  · exact le_refl 0
  · rename_i hc
    have hc' : 0 < c := lt_of_not_le hc
    have h1 : 0 < mic ^ hill := Real.rpow_pos_of_pos hm hill
    have h2 : 0 < c ^ hill := Real.rpow_pos_of_pos hc' hill
    apply div_nonneg (mul_nonneg he h2.le) (by linarith)

/-- The Hill effect never exceeds `emax`. -/
theorem pharmacodynamic_effect_le_emax (mic emax hill : ℝ) (hm : 0 < mic)
    (he : 0 ≤ emax) (c : ℝ) : Full.pharmacodynamic_effect c mic emax hill ≤ emax := by
  unfold Full.pharmacodynamic_effect
  split
  · exact he
  · rename_i hc
    have hc' : 0 < c := lt_of_not_le hc
    have h1 : 0 < mic ^ hill := Real.rpow_pos_of_pos hm hill
    have h2 : 0 < c ^ hill := Real.rpow_pos_of_pos hc' hill
    rw [div_le_iff₀ (by linarith)]
    nlinarith

/-- Monotonicity of the Hill effect in the concentration. -/
theorem pharmacodynamic_effect_mono (mic emax hill : ℝ) (hm : 0 < mic)
    (he : 0 ≤ emax) (hh : 0 ≤ hill) {c₁ c₂ : ℝ} (h12 : c₁ ≤ c₂) :
    Full.pharmacodynamic_effect c₁ mic emax hill ≤ Full.pharmacodynamic_effect c₂ mic emax hill := by
  by_cases h1 : c₁ ≤ 0
  · have hnn := pharmacodynamic_effect_nonneg mic emax hill hm he c₂
    simpa [Full.pharmacodynamic_effect, h1] using hnn
  · have hc1 : 0 < c₁ := lt_of_not_le h1
    have hc2 : 0 < c₂ := lt_of_lt_of_le hc1 h12
    have ha : 0 < c₁ ^ hill := Real.rpow_pos_of_pos hc1 hill
    have hb : 0 < c₂ ^ hill := Real.rpow_pos_of_pos hc2 hill
    have hab : c₁ ^ hill ≤ c₂ ^ hill := Real.rpow_le_rpow hc1.le h12 hh
    have hmh : 0 < mic ^ hill := Real.rpow_pos_of_pos hm hill
    simp only [Full.pharmacodynamic_effect, if_neg h1, if_neg (not_le.mpr hc2)]
    rw [div_le_div_iff₀ (by linarith) (by linarith)]
    nlinarith [mul_le_mul_of_nonneg_right (mul_le_mul_of_nonneg_left hab he) hmh.le]

/-- The Hill effect tends to `emax` as the concentration grows without bound. -/
theorem pharmacodynamic_effect_tendsto (mic emax hill : ℝ) (hm : 0 < mic)
    (hh : 0 < hill) :
    Filter.Tendsto (fun c => Full.pharmacodynamic_effect c mic emax hill)
      Filter.atTop (nhds emax) := by
  have hmh : 0 < mic ^ hill := Real.rpow_pos_of_pos hm hill
  have hdenom : Filter.Tendsto (fun c : ℝ => mic ^ hill + c ^ hill) Filter.atTop Filter.atTop :=
    Filter.tendsto_atTop_add_const_left _ _ (tendsto_rpow_atTop hh)
  have hfrac : Filter.Tendsto (fun c : ℝ => mic ^ hill / (mic ^ hill + c ^ hill))
      Filter.atTop (nhds 0) := tendsto_const_nhds.div_atTop hdenom
  have hmain : Filter.Tendsto (fun c : ℝ => emax * (1 - mic ^ hill / (mic ^ hill + c ^ hill)))
      Filter.atTop (nhds emax) := by
    have hone : Filter.Tendsto (fun _ : ℝ => (1 : ℝ)) Filter.atTop (nhds 1) := tendsto_const_nhds
    have h := (hone.sub hfrac).const_mul emax
    simpa using h
  refine hmain.congr' ?_
  filter_upwards [Filter.eventually_gt_atTop 0] with c hc
  have hch : 0 < c ^ hill := Real.rpow_pos_of_pos hc hill
  simp only [Full.pharmacodynamic_effect, if_neg (not_le.mpr hc)]
  field_simp

end HelperLemmas

/-- C10: the mutation terms of `ode_system` cancel in the sum of the two
returned rates: `dS_dt + dR_dt` equals
`(growth_rate_s * growth_factor - kill_S) * S + (growth_rate_r * growth_factor - kill_R) * R`
and is independent of `mutation_rate` — mutation moves cells from the
sensitive to the resistant subpopulation without changing the instantaneous
rate of change of the total population. -/
theorem ode_mutation_flux_conserved (m : Full.BacterialPopulationModel) (t : ℝ)
    (S R : ℝ) (concFn : ℝ → ℝ) (drug : Full.DrugProperties) :
    ((Full.ode_system m t (S, R) concFn drug).1 + (Full.ode_system m t (S, R) concFn drug).2
      = (m.growth_rate_s * (1 - (S + R) / m.carrying_capacity)
          - Full.pharmacodynamic_effect (concFn t) drug.mic_sensitive drug.emax
              drug.hill_coefficient) * S
        + (m.growth_rate_r * (1 - (S + R) / m.carrying_capacity)
          - Full.pharmacodynamic_effect (concFn t) drug.mic_resistant drug.emax
              drug.hill_coefficient) * R)
    ∧ ∀ mu1 mu2 : ℝ,
        (Full.ode_system { m with mutation_rate := mu1 } t (S, R) concFn drug).1
          + (Full.ode_system { m with mutation_rate := mu1 } t (S, R) concFn drug).2
        = (Full.ode_system { m with mutation_rate := mu2 } t (S, R) concFn drug).1
          + (Full.ode_system { m with mutation_rate := mu2 } t (S, R) concFn drug).2 := by
  constructor
  · simp only [Full.ode_system]
    ring
  · intro mu1 mu2
    simp only [Full.ode_system]
    ring

/-- C1, counterexample: the claim says the ODE right-hand side computes
`growth_factor = max(0, 1 - (S+R)/carrying_capacity)`, never negative, and
returns exactly the claimed `dS`, `dR`. `ode_system`
(animated_visualizer.py:1723, antibiotic_simulator_full.py:171) does not
clamp: at `S = 2e12 > carrying_capacity = 1e12`, `R = 0` and zero
concentration, the returned `dS` differs from the value the claimed clamped
formula gives. `calculate_bacterial_change` (scientific_simulator.py:160-188)
additionally subtracts competition terms absent from the claimed formula: at
`S = R = 1e12` and zero concentration its `dS` differs from the claimed value
as well. -/
theorem bacterial_rhs_counterexample :
    ((Full.ode_system Full.defaultPopulationModel 0 (2e12, 0) (fun _ => 0) Fixtures.demoDrug).1
      ≠ (Spec.bacterial_rhs_clamped 0.693 0.623 1e-8 1e12
          (Full.pharmacodynamic_effect 0 Fixtures.demoDrug.mic_sensitive Fixtures.demoDrug.emax
            Fixtures.demoDrug.hill_coefficient)
          (Full.pharmacodynamic_effect 0 Fixtures.demoDrug.mic_resistant Fixtures.demoDrug.emax
            Fixtures.demoDrug.hill_coefficient)
          (2e12) 0).1)
  ∧ ((Sci.calculate_bacterial_change Sci.defaultBacterialModel 1e12 1e12 0 0.5 8.0).1
      ≠ (Spec.bacterial_rhs_clamped 0.693 0.623 1e-8 1e12
          (Sci.sigmoid_kill_curve 0 0.5 4.0 2.5)
          (Sci.sigmoid_kill_curve 0 8.0 4.0 2.5) 1e12 1e12).1) := by
  constructor
  · have hmax : max (0 : ℝ) (1 - (2e12 + 0) / 1e12) = 0 := by
      rw [max_eq_left (by norm_num)]
    norm_num [Full.ode_system, Spec.bacterial_rhs_clamped, Full.pharmacodynamic_effect,
      Full.defaultPopulationModel, hmax]
  · have hkS : Sci.sigmoid_kill_curve 0 0.5 4.0 2.5 = 0 := by
      simp [Sci.sigmoid_kill_curve]
    have hkR : Sci.sigmoid_kill_curve 0 8.0 4.0 2.5 = 0 := by
      simp [Sci.sigmoid_kill_curve]
    simp only [Sci.calculate_bacterial_change, Spec.bacterial_rhs_clamped,
      Sci.defaultBacterialModel, hkS, hkR]
    rw [if_pos (by norm_num : (1e12 + 1e12 : ℝ) > 0)]
    intro h
    nlinarith [h]

/-- C1, amended: `update_simulation_step` of `antibiotic_fixed.py` computes
exactly the claimed rates with the clamped growth factor
`max(0, 1 - (S+R)/carrying_capacity)`; the `ode_system` right-hand side of
`animated_visualizer.py` / `antibiotic_simulator_full.py` computes the same
`dS`, `dR` formulas but with the unclamped growth factor
`1 - (S+R)/carrying_capacity`, which is negative once `S+R` exceeds the
carrying capacity; and `calculate_bacterial_change` of
`scientific_simulator.py` computes the claimed clamped right-hand side (Hill
kills at its defaults `emax = 4.0`, `hill = 2.5`) minus the additional
competition fluxes `(competition_coefficient × R / (S+R)) × S` and
`(competition_coefficient × S / (S+R)) × R` (zero when `S+R ≤ 0`). -/
theorem bacterial_rhs_amended :
    (∀ emax hill mic_s mic_r S R conc : ℝ,
        Fixed.update_rates emax hill mic_s mic_r S R conc
          = Spec.bacterial_rhs_clamped 0.693 0.623 1e-8 1e12
              (Fixed.pharmacodynamic_effect emax hill conc mic_s)
              (Fixed.pharmacodynamic_effect emax hill conc mic_r) S R)
  ∧ (∀ (m : Full.BacterialPopulationModel) (t S R : ℝ) (concFn : ℝ → ℝ)
        (drug : Full.DrugProperties),
        Full.ode_system m t (S, R) concFn drug
          = Spec.bacterial_rhs_unclamped m.growth_rate_s m.growth_rate_r m.mutation_rate
              m.carrying_capacity
              (Full.pharmacodynamic_effect (concFn t) drug.mic_sensitive drug.emax
                drug.hill_coefficient)
              (Full.pharmacodynamic_effect (concFn t) drug.mic_resistant drug.emax
                drug.hill_coefficient)
              S R)
  ∧ (∀ (m : Sci.BacterialDynamicsModel) (S R conc mic_s mic_r : ℝ),
        Sci.calculate_bacterial_change m S R conc mic_s mic_r
          = ((Spec.bacterial_rhs_clamped m.growth_rate_sensitive m.growth_rate_resistant
                m.mutation_rate m.carrying_capacity
                (Sci.sigmoid_kill_curve conc mic_s 4.0 2.5)
                (Sci.sigmoid_kill_curve conc mic_r 4.0 2.5) S R).1
              - (if S + R > 0 then m.competition_coefficient * R / (S + R) else 0) * S,
             (Spec.bacterial_rhs_clamped m.growth_rate_sensitive m.growth_rate_resistant
                m.mutation_rate m.carrying_capacity
                (Sci.sigmoid_kill_curve conc mic_s 4.0 2.5)
                (Sci.sigmoid_kill_curve conc mic_r 4.0 2.5) S R).2
              - (if S + R > 0 then m.competition_coefficient * S / (S + R) else 0) * R)) := by
  refine ⟨?_, ?_, ?_⟩
  · intro emax hill mic_s mic_r S R conc
    rfl
  · intro m t S R concFn drug
    rfl
  · intro m S R conc mic_s mic_r
    refine Prod.ext ?_ ?_ <;>
      simp only [Sci.calculate_bacterial_change, Spec.bacterial_rhs_clamped] <;>
      ring

/-- C4, counterexample: the claim says the age factor is
`max(0, 1 - 0.01*(age-30))`, so `ke` is never negative. The code
(antibiotic_simulator_full.py:99, animated_visualizer.py:1651) does not clamp
the age factor: at age 140 the personalized elimination rate is negative. -/
theorem elimination_rate_negative_counterexample :
    Full.calculate_elimination_rate Fixtures.demoDrug Fixtures.veryOldPatient < 0 := by
  norm_num [Full.calculate_elimination_rate, Fixtures.demoDrug, Fixtures.veryOldPatient,
    Fixtures.stdPatient, List.lookup_nil]

/-- C4, amended: the personalized elimination rate equals
`0.693/half_life × (creatinine_clearance/120) × genetic_factor × age_factor`
with `age_factor = 1 - 0.01*(age-30)` for age > 30 (unclamped) and 1
otherwise; consequently, with positive half-life, renal and genetic factors,
the computed `ke` is negative for every age above 130. -/
theorem elimination_rate_amended (drug : Full.DrugProperties) (patient : Full.PatientProfile)
    (hhl : 0 < drug.half_life) (hcc : 0 < patient.creatinine_clearance)
    (hg : 0 < (patient.genetic_markers.lookup "cyp_activity").getD 1.0)
    (hage : 130 < patient.age) :
    Full.calculate_elimination_rate drug patient
      = Spec.elimination_rate_unclamped drug.half_life patient.creatinine_clearance
          ((patient.genetic_markers.lookup "cyp_activity").getD 1.0) patient.age
    ∧ Full.calculate_elimination_rate drug patient < 0 := by
  refine ⟨rfl, ?_⟩
  have hpos : 0 < (0.693 / drug.half_life) * (patient.creatinine_clearance / 120.0) *
      (patient.genetic_markers.lookup "cyp_activity").getD 1.0 := by positivity
  have hneg : (if patient.age > 30 then 1.0 - (patient.age - 30) * 0.01 else 1.0) < 0 := by
    rw [if_pos (by linarith : patient.age > 30)]
    nlinarith
  simp only [Full.calculate_elimination_rate]
  exact mul_neg_of_pos_of_neg hpos hneg

/-- Witness for the amended C4 theorem at a concrete patient of age 150. -/
theorem elimination_rate_amended_witness :
    Full.calculate_elimination_rate Fixtures.demoDrug Fixtures.veryOldPatient150 < 0 :=
  (elimination_rate_amended Fixtures.demoDrug Fixtures.veryOldPatient150
    (by norm_num [Fixtures.demoDrug])
    (by norm_num [Fixtures.veryOldPatient150, Fixtures.stdPatient])
    (by norm_num [Fixtures.veryOldPatient150, Fixtures.stdPatient, List.lookup_nil])
    (by norm_num [Fixtures.veryOldPatient150, Fixtures.stdPatient])).2

/-- C7, counterexample: the claim says constructing the PK model with
`half_life ≤ 0` or computed `vd ≤ 0` fails immediately. The constructor
(antibiotic_simulator_full.py:80-86, scientific_simulator.py:99-103) performs
no validation: with `half_life = -4` it silently produces a model with a
negative elimination rate, and with negative weight a model with negative
distribution volume. -/
theorem pk_construction_accepts_invalid_counterexample :
    (Full.mkPharmacokineticModel Fixtures.badHalfLifeDrug Fixtures.stdPatient).ke < 0
  ∧ (Full.mkPharmacokineticModel Fixtures.demoDrug Fixtures.negWeightPatient).vd < 0 := by
  constructor
  · norm_num [Full.mkPharmacokineticModel, Full.calculate_elimination_rate,
      Fixtures.badHalfLifeDrug, Fixtures.demoDrug, Fixtures.stdPatient, List.lookup_nil]
  · norm_num [Full.mkPharmacokineticModel, Full.calculate_volume_distribution,
      Fixtures.demoDrug, Fixtures.negWeightPatient, Fixtures.stdPatient]

/-- C7, amended: construction never fails and never validates; an invalid
configuration is silently accepted, the stored `ke` and `vd` being computed
from the same formulas regardless of sign — in particular with a negative
half-life (and positive renal/genetic factors, age below 130) the accepted
model has `ke < 0`, and `vd` is stored as `volume_distribution × weight`
whatever its sign. -/
theorem pk_construction_amended (drug : Full.DrugProperties) (patient : Full.PatientProfile)
    (hhl : drug.half_life < 0) (hcc : 0 < patient.creatinine_clearance)
    (hg : 0 < (patient.genetic_markers.lookup "cyp_activity").getD 1.0)
    (hage : patient.age < 130) :
    (Full.mkPharmacokineticModel drug patient).ke < 0
  ∧ (Full.mkPharmacokineticModel drug patient).vd
      = drug.volume_distribution * patient.weight := by
  refine ⟨?_, rfl⟩
  have hbase : 0.693 / drug.half_life < 0 := div_neg_of_pos_of_neg (by norm_num) hhl
  have haf : 0 < (if patient.age > 30 then 1.0 - (patient.age - 30) * 0.01 else 1.0) := by
    split
    · rename_i h
      nlinarith
    · norm_num
  show Full.calculate_elimination_rate drug patient < 0
  simp only [Full.calculate_elimination_rate]
  have h1 : 0.693 / drug.half_life * (patient.creatinine_clearance / 120.0) < 0 :=
    mul_neg_of_neg_of_pos hbase (by positivity)
  have h2 : 0.693 / drug.half_life * (patient.creatinine_clearance / 120.0) *
      (patient.genetic_markers.lookup "cyp_activity").getD 1.0 < 0 :=
    mul_neg_of_neg_of_pos h1 hg
  exact mul_neg_of_neg_of_pos h2 haf

/-- Witness for the amended C7 theorem at the demo drug with negative
half-life and the standard patient. -/
theorem pk_construction_amended_witness :
    (Full.mkPharmacokineticModel Fixtures.badHalfLifeDrug Fixtures.stdPatient).ke < 0
  ∧ (Full.mkPharmacokineticModel Fixtures.badHalfLifeDrug Fixtures.stdPatient).vd
      = Fixtures.badHalfLifeDrug.volume_distribution * Fixtures.stdPatient.weight :=
  pk_construction_amended Fixtures.badHalfLifeDrug Fixtures.stdPatient
    (by norm_num [Fixtures.badHalfLifeDrug, Fixtures.demoDrug])
    (by norm_num [Fixtures.stdPatient])
    (by norm_num [Fixtures.stdPatient, List.lookup_nil])
    (by norm_num [Fixtures.stdPatient])

/-- C5: the outcome evaluation returns `final_total = S(T) + R(T)`,
`final_resistance_fraction = R/final_total` with the convention 0 when the
final total is 0, and `treatment_success` holds iff `final_total < 1e6` and
the resistance fraction is below 0.1. -/
theorem outcome_evaluation_correct (S R : ℝ) (hS : 0 ≤ S) (hR : 0 ≤ R) :
    Outcome.final_total S R = S + R
  ∧ Outcome.final_resistance_fraction S R = Outcome.spec_resistance_fraction S R
  ∧ (Outcome.treatment_success S R ↔
      Outcome.final_total S R < 1e6 ∧ Outcome.spec_resistance_fraction S R < 0.1) := by
  have key : Outcome.final_resistance_fraction S R = Outcome.spec_resistance_fraction S R := by
    unfold Outcome.final_resistance_fraction Outcome.spec_resistance_fraction Outcome.final_total
    by_cases h : S + R = 0
    · simp [h]
    · have hpos : 0 < S + R := lt_of_le_of_ne (add_nonneg hS hR) (Ne.symm h)
      rw [if_pos hpos, if_neg h]
  refine ⟨rfl, key, ?_⟩
  unfold Outcome.treatment_success
  rw [key]

/-- Witness for C5 at a concrete successful endpoint. -/
theorem outcome_evaluation_correct_witness :
    Outcome.final_total 1e5 0 = 1e5 + 0
  ∧ Outcome.final_resistance_fraction 1e5 0 = Outcome.spec_resistance_fraction 1e5 0
  ∧ (Outcome.treatment_success 1e5 0 ↔
      Outcome.final_total 1e5 0 < 1e6 ∧ Outcome.spec_resistance_fraction 1e5 0 < 0.1) :=
  outcome_evaluation_correct 1e5 0 (by norm_num) (by norm_num)

/-- C9: the simulation run is a pure deterministic function of the simulator
state and the dose schedule — two calls with identical arguments return
element-wise identical time, concentration, sensitive and resistant series. -/
theorem run_simulation_deterministic (sim1 sim2 : Sci.ScientificSimulator)
    (sched1 sched2 : List (ℝ × ℝ)) (hsim : sim1 = sim2) (hsched : sched1 = sched2) :
    (Sci.run_simulation sim1 sched1).times = (Sci.run_simulation sim2 sched2).times
  ∧ (Sci.run_simulation sim1 sched1).concentrations
      = (Sci.run_simulation sim2 sched2).concentrations
  ∧ (Sci.run_simulation sim1 sched1).sensitive_populations
      = (Sci.run_simulation sim2 sched2).sensitive_populations
  ∧ (Sci.run_simulation sim1 sched1).resistant_populations
      = (Sci.run_simulation sim2 sched2).resistant_populations := by
  subst hsim
  subst hsched
  exact ⟨rfl, rfl, rfl, rfl⟩

/-- Witness for C9 at the default simulator and a one-dose schedule. -/
theorem run_simulation_deterministic_witness :
    (Sci.run_simulation Sci.defaultSimulator [(0, 500)]).times
      = (Sci.run_simulation Sci.defaultSimulator [(0, 500)]).times
  ∧ (Sci.run_simulation Sci.defaultSimulator [(0, 500)]).concentrations
      = (Sci.run_simulation Sci.defaultSimulator [(0, 500)]).concentrations
  ∧ (Sci.run_simulation Sci.defaultSimulator [(0, 500)]).sensitive_populations
      = (Sci.run_simulation Sci.defaultSimulator [(0, 500)]).sensitive_populations
  ∧ (Sci.run_simulation Sci.defaultSimulator [(0, 500)]).resistant_populations
      = (Sci.run_simulation Sci.defaultSimulator [(0, 500)]).resistant_populations :=
  run_simulation_deterministic Sci.defaultSimulator Sci.defaultSimulator
    [(0, 500)] [(0, 500)] rfl rfl

/-- Every recorded population pair of the Euler loop is componentwise
nonnegative when the initial populations are. -/
theorem simulate_populations_nonneg (sim : Sci.ScientificSimulator) (concs : List ℝ)
    (hS : 0 ≤ sim.initial_S) (hR : 0 ≤ sim.initial_R) :
    ∀ p ∈ Sci.simulate_populations sim concs, 0 ≤ p.1 ∧ 0 ≤ p.2 := by
  cases concs with
  | nil =>
    intro p hp
    simp [Sci.simulate_populations] at hp
  | cons c rest =>
    intro p hp
    refine mem_scanl_invariant (Sci.euler_step sim) (fun q => 0 ≤ q.1 ∧ 0 ≤ q.2)
      ?_ rest _ ⟨hS, hR⟩ p hp
    intro b a
    exact ⟨le_max_left 0 _, le_max_left 0 _⟩

/-- Each value the inner loop of `concentration_time_course` computes is the
superposition — with bioavailability 1 and no free-fraction factor — over the
released prefix of the implicit 12-hour-grid schedule. -/
theorem ctc_step_sum_superposition (m : Full.PharmacokineticModel) (doses : List ℝ)
    (t : ℝ) (k : ℕ) :
    Full.ctc_step_sum m doses k t
      = Spec.concentration_superposition 1 m.vd m.ke t
          ((List.range k).map (fun j : ℕ => ((j : ℝ) * 12, doses.getD j 0))) := by
  induction k with
  | zero =>
    simp [Full.ctc_step_sum, Spec.concentration_superposition]
  | succ k ih =>
    simp only [Full.ctc_step_sum, Spec.concentration_superposition] at ih ⊢
    rw [List.range_succ]
    simp only [List.foldl_append, List.foldl_cons, List.foldl_nil, List.map_append,
      List.map_cons, List.map_nil, List.filter_append, List.sum_append]
    rw [ih]
    by_cases hk : (k : ℝ) * 12 ≤ t
    · simp only [hk, if_true, List.filter_cons, List.filter_nil, decide_eq_true_eq,
        if_pos, List.map_cons, List.map_nil, List.sum_cons, List.sum_nil]
      ring
    · simp [hk]

/-- The loop of `concentration_time_course` emits, point for point, the values
described by `Spec.twelve_hour_course`. -/
theorem concentration_time_course_aux_eq (m : Full.PharmacokineticModel) (doses : List ℝ)
    (times : List ℝ) : ∀ k : ℕ,
    Full.concentration_time_course_aux m doses k times
      = Spec.twelve_hour_course m.vd m.ke doses k times := by
  induction times with
  | nil =>
    intro k
    rfl
  | cons t rest ih =>
    intro k
    simp only [Full.concentration_time_course_aux, Spec.twelve_hour_course, Full.next_dose_idx]
    rw [ctc_step_sum_superposition, ih]

/-- C3, counterexample: the claim says the concentration is, for every dose
schedule, the sum of `(dose_amount × bioavailability / vd) × exp(−ke × (t −
dose_time))` terms over doses with `dose_time ≤ t`. `calculate_concentration`
(scientific_simulator.py:105-127) multiplies each term by the additional
free-drug factor `1 − protein_binding = 0.75`, so for a single 500 mg dose at
`t = 0` the computed value differs from the claimed sum; and
`concentration_time_course` (antibiotic_simulator_full.py:110-137) asked for
the single time `t = 24` with doses `[500, 500]` on its implicit 12-hour grid
releases only the first dose, so its value differs from the claimed sum over
that schedule even with bioavailability 1 — the dose at time 12 ≤ 24 is
dropped. -/
theorem concentration_formula_counterexample :
    (Sci.calculate_concentration Sci.defaultSimulator.pk_model 0 [0] [500]
      ≠ Spec.concentration_superposition Sci.defaultSimulator.pk_model.drug.bioavailability
          Sci.defaultSimulator.pk_model.vd Sci.defaultSimulator.pk_model.ke 0 [(0, 500)])
  ∧ (Full.concentration_time_course
        (Full.mkPharmacokineticModel Fixtures.demoDrug Fixtures.stdPatient) [500, 500] [24]
      ≠ [Spec.concentration_superposition 1
          (Full.mkPharmacokineticModel Fixtures.demoDrug Fixtures.stdPatient).vd
          (Full.mkPharmacokineticModel Fixtures.demoDrug Fixtures.stdPatient).ke
          24 [(0, 500), (12, 500)]]) := by
  constructor
  · have hmax : max (0.5 : ℝ) (1.0 - (35.0 - 35.0) * 0.005) = 1 := by
      rw [show (1.0 : ℝ) - (35.0 - 35.0) * 0.005 = 1 by norm_num]
      exact max_eq_right (by norm_num)
    have hvd : Sci.defaultSimulator.pk_model.vd = 147 := by
      simp only [Sci.defaultSimulator, Sci.mkPharmacokineticModel, Sci.get_distribution_volume,
        Sci.get_volume_adjustment, hmax]
      norm_num
    have hbio : Sci.defaultSimulator.pk_model.drug.bioavailability = 0.78 := rfl
    have hpb : Sci.defaultSimulator.pk_model.drug.protein_binding = 0.25 := rfl
    unfold Sci.calculate_concentration Spec.concentration_superposition
    simp only [List.zip_cons_cons, List.zip_nil_right, List.foldl_cons, List.foldl_nil,
      List.filter_cons, List.filter_nil, List.map_cons, List.map_nil, List.sum_cons,
      List.sum_nil, hvd, hbio, hpb]
    norm_num [Real.exp_zero]
  · have hvd : (Full.mkPharmacokineticModel Fixtures.demoDrug Fixtures.stdPatient).vd = 175 := by
      norm_num [Full.mkPharmacokineticModel, Full.calculate_volume_distribution,
        Fixtures.demoDrug, Fixtures.stdPatient]
    have h1 : Full.concentration_time_course
        (Full.mkPharmacokineticModel Fixtures.demoDrug Fixtures.stdPatient) [500, 500] [24]
        = [Spec.concentration_superposition 1
            (Full.mkPharmacokineticModel Fixtures.demoDrug Fixtures.stdPatient).vd
            (Full.mkPharmacokineticModel Fixtures.demoDrug Fixtures.stdPatient).ke 24
            ((List.range 1).map (fun j : ℕ => ((j : ℝ) * 12, ([500, 500] : List ℝ).getD j 0)))] := by
      simp only [Full.concentration_time_course, Full.concentration_time_course_aux,
        Full.next_dose_idx]
      rw [if_pos (by norm_num : (0 : ℕ) < ([(500 : ℝ), 500]).length ∧ ((0 : ℕ) : ℝ) * 12 ≤ 24)]
      rw [ctc_step_sum_superposition]
    rw [h1]
    have hr1 : (List.range 1).map (fun j : ℕ => ((j : ℝ) * 12, ([500, 500] : List ℝ).getD j 0))
        = [((0 : ℝ), (500 : ℝ))] := by
      simp [List.range_succ]
    rw [hr1]
    simp only [Spec.concentration_superposition, ne_eq, List.cons.injEq, and_true]
    norm_num [hvd]

/-- C3, amended: `calculate_concentration` (scientific_simulator.py) computes,
for every model state, time and dose schedule, `max(0, Σ over doses with
dose_time ≤ t of (dose_amount × bioavailability / vd) × exp(−ke × (t −
dose_time)) × (1 − protein_binding))` — superposition over an arbitrary,
possibly irregular schedule, with the free-drug factor included — doses with
`dose_time > t` contribute nothing and the result is always ≥ 0;
`concentration_time_course` (antibiotic_simulator_full.py) takes no dose
times: it assumes the fixed 12-hour grid, releases at most one dose per output
time point, and emits at each time `t` the superposition `Σ over released
doses j with j·12 ≤ t of (doses[j] / vd) × exp(−ke × (t − j·12))`, with no
bioavailability or free-fraction factor. -/
theorem concentration_superposition_amended (m : Sci.PharmacokineticModel) (time : ℝ)
    (dose_times dose_amounts : List ℝ) :
    (Sci.calculate_concentration m time dose_times dose_amounts
      = max 0 (Spec.concentration_superposition_free m.drug.bioavailability
          m.drug.protein_binding m.vd m.ke time (dose_times.zip dose_amounts)))
  ∧ 0 ≤ Sci.calculate_concentration m time dose_times dose_amounts
  ∧ (∀ (fm : Full.PharmacokineticModel) (doses times2 : List ℝ),
      Full.concentration_time_course fm doses times2
        = Spec.twelve_hour_course fm.vd fm.ke doses 0 times2) := by
  have key : Sci.calculate_concentration m time dose_times dose_amounts
      = max 0 (Spec.concentration_superposition_free m.drug.bioavailability
          m.drug.protein_binding m.vd m.ke time (dose_times.zip dose_amounts)) := by
    unfold Sci.calculate_concentration Spec.concentration_superposition_free
    rw [foldl_ite_add time
      (fun d => (d.2 * m.drug.bioavailability / m.vd) * Real.exp (-m.ke * (time - d.1))
        * (1.0 - m.drug.protein_binding))
      (dose_times.zip dose_amounts) 0]
    norm_num
  refine ⟨key, key ▸ le_max_left 0 _, ?_⟩
  intro fm doses times2
  exact concentration_time_course_aux_eq fm doses times2 0

/-- C6: the Hill-equation effect returns 0 for every nonpositive
concentration, is monotone in the concentration, always lies between 0 and
`emax`, and saturates at `emax` as the concentration grows without bound;
`sigmoid_kill_curve` of scientific_simulator.py computes the same function. -/
theorem pharmacodynamic_effect_props (mic emax hill : ℝ)
    (hm : 0 < mic) (he : 0 < emax) (hh : 0 < hill) :
    (∀ c : ℝ, c ≤ 0 → Full.pharmacodynamic_effect c mic emax hill = 0)
  ∧ (∀ c1 c2 : ℝ, c1 ≤ c2 →
      Full.pharmacodynamic_effect c1 mic emax hill
        ≤ Full.pharmacodynamic_effect c2 mic emax hill)
  ∧ (∀ c : ℝ, 0 ≤ Full.pharmacodynamic_effect c mic emax hill
      ∧ Full.pharmacodynamic_effect c mic emax hill ≤ emax)
  ∧ Filter.Tendsto (fun c => Full.pharmacodynamic_effect c mic emax hill)
      Filter.atTop (nhds emax)
  ∧ (∀ c m2 e2 h2 : ℝ, Sci.sigmoid_kill_curve c m2 e2 h2
      = Full.pharmacodynamic_effect c m2 e2 h2) := by
  refine ⟨?_, ?_, ?_, ?_, ?_⟩
  · intro c hc
    simp [Full.pharmacodynamic_effect, hc]
  · intro c1 c2 h12
    exact pharmacodynamic_effect_mono mic emax hill hm he.le hh.le h12
  · intro c
    exact ⟨pharmacodynamic_effect_nonneg mic emax hill hm he.le c,
      pharmacodynamic_effect_le_emax mic emax hill hm he.le c⟩
  · exact pharmacodynamic_effect_tendsto mic emax hill hm hh
  · intro c m2 e2 h2
    rfl

/-- Witness for C6: monotonicity at `mic = 1`, `emax = 4`, `hill = 1` and
concentrations 2 ≤ 3. -/
theorem pharmacodynamic_effect_props_witness :
    Full.pharmacodynamic_effect 2 1 4 1 ≤ Full.pharmacodynamic_effect 3 1 4 1 :=
  (pharmacodynamic_effect_props 1 4 1 (by norm_num) (by norm_num) (by norm_num)).2.1
    2 3 (by norm_num)

/-- C2, counterexample: the claim says values are clamped at zero for every
integration strategy, adaptive ODE integration included. The adaptive path
(`_simulate_single_patient`, animated_visualizer.py:2311-2313) records the
solver's output verbatim: if the solver's trajectory contains −5, the recorded
sensitive series contains −5 < 0 — no clamping is applied there. -/
theorem nonnegativity_counterexample :
    (-5 : ℝ) ∈ (Animated.record_solution ⟨[1e8, -5], [1e4, 2]⟩).S_trajectory
  ∧ (-5 : ℝ) < 0 := by
  constructor
  · simp [Animated.record_solution]
  · norm_num

/-- C2, amended: the fixed-step Euler strategy clamps every step at zero, so
all recorded sensitive and resistant populations are nonnegative whenever the
initial populations are; the adaptive-ODE strategy records the solver output
unmodified, applying no clamping, so nonnegativity there is inherited from the
solver rather than enforced by the engine. -/
theorem nonnegativity_amended (sim : Sci.ScientificSimulator) (sched : List (ℝ × ℝ))
    (hS : 0 ≤ sim.initial_S) (hR : 0 ≤ sim.initial_R) :
    (∀ x ∈ (Sci.run_simulation sim sched).sensitive_populations, 0 ≤ x)
  ∧ (∀ x ∈ (Sci.run_simulation sim sched).resistant_populations, 0 ≤ x)
  ∧ (∀ sol : Animated.SolverOutput,
      (Animated.record_solution sol).S_trajectory = sol.y0
    ∧ (Animated.record_solution sol).R_trajectory = sol.y1) := by
  refine ⟨?_, ?_, fun sol => ⟨rfl, rfl⟩⟩
  · intro x hx
    simp only [Sci.run_simulation, List.mem_map] at hx
    obtain ⟨p, hp, rfl⟩ := hx
    exact (simulate_populations_nonneg sim _ hS hR p hp).1
  · intro x hx
    simp only [Sci.run_simulation, List.mem_map] at hx
    obtain ⟨p, hp, rfl⟩ := hx
    exact (simulate_populations_nonneg sim _ hS hR p hp).2

/-- Witness for the amended C2 theorem: the hypotheses hold at the default
simulator with an empty schedule, and the adaptive path records a concrete
solver output verbatim. -/
theorem nonnegativity_amended_witness :
    (Animated.record_solution ⟨[1e8, 0], [1e4, 2]⟩).S_trajectory = [1e8, 0]
  ∧ (Animated.record_solution ⟨[1e8, 0], [1e4, 2]⟩).R_trajectory = [1e4, 2] :=
  (nonnegativity_amended Sci.defaultSimulator []
    (by norm_num [Sci.defaultSimulator])
    (by norm_num [Sci.defaultSimulator])).2.2 ⟨[1e8, 0], [1e4, 2]⟩

/-- C8, counterexample: the claim says a dose schedule with a negative time or
a negative amount is rejected with an error before any simulation step and no
trajectory is produced. `run_simulation` (scientific_simulator.py:207-244)
performs no validation: called on the schedule `[(-5, -100)]` it produces a
full 1680-point trajectory. -/
theorem run_no_validation_counterexample :
    (Sci.run_simulation Sci.defaultSimulator [(-5, -100)]).times.length = 1680 := by
  have h1 : (Sci.run_simulation Sci.defaultSimulator [(-5, -100)]).times.length
      = Nat.ceil (Sci.defaultSimulator.max_time / Sci.defaultSimulator.time_step) := by
    simp only [Sci.run_simulation, List.length_map, List.length_range]
  rw [h1]
  have h2 : Sci.defaultSimulator.max_time / Sci.defaultSimulator.time_step = (1680 : ℝ) := by
    norm_num [Sci.defaultSimulator]
  rw [h2]
  simp

/-- C8, amended: `run_simulation` performs no input validation at all — the
time step and horizon are fixed instance attributes rather than call
parameters, and every dose schedule, malformed ones with negative times or
amounts included, yields a trajectory of `⌈max_time / time_step⌉` points in
each series; no InvalidParameter error path exists. -/
theorem run_no_validation_amended (sim : Sci.ScientificSimulator) (sched : List (ℝ × ℝ)) :
    (Sci.run_simulation sim sched).times.length = Nat.ceil (sim.max_time / sim.time_step)
  ∧ (Sci.run_simulation sim sched).concentrations.length
      = Nat.ceil (sim.max_time / sim.time_step)
  ∧ (Sci.run_simulation sim sched).sensitive_populations.length
      = Nat.ceil (sim.max_time / sim.time_step)
  ∧ (Sci.run_simulation sim sched).resistant_populations.length
      = Nat.ceil (sim.max_time / sim.time_step) := by
  refine ⟨?_, ?_, ?_, ?_⟩ <;>
    simp only [Sci.run_simulation, List.length_map, List.length_range,
      simulate_populations_length]
